import Mathlib

/-!
Shallow embedding of src/examples/pipelines/rag/text_to_sql_pipeline.py
(the "Llama Index DB Pipeline", the only source file of the repository).

The file is a configuration-and-glue layer: it builds configuration
objects and hands them to external libraries (sqlalchemy, llama_index).
The embedding represents each external constructor call by a record of
the arguments the source passes to it, so the theorems speak about the
exact values that cross the library boundary.  Stateful Python methods
become explicit state passing on the `Pipeline` structure.  The float
literal 180.0 (seconds) of the source is represented by the natural
number 180.
-/

namespace TextToSql

/-- The process environment, as queried by os.environ lookups:
a partial map from variable names to values. -/
abbrev Env := String → Option String

/-- An os.environ[key] access: returns the value, or raises KeyError
when the variable is absent (modelled as Except.error). -/
def osEnviron (env : Env) (key : String) : Except String String :=
  match env key with
  | some v => Except.ok v
  | none => Except.error ("KeyError: " ++ key)

/-- A Python dict, abstracted as an association list of string pairs
(the source never reads the contents of messages or body). -/
abbrev Dict := List (String × String)

/-- The sqlalchemy engine handle, identified by the connection URL the
source builds it from (create_engine at line 33). -/
structure Engine where
  url : String
deriving DecidableEq, Repr

/-- Embedding of sqlalchemy.create_engine: wraps the connection URL. -/
def create_engine (url : String) : Engine :=
  { url := url }

/-- The llama_index SQLDatabase schema view, recorded as the arguments
the source passes to its constructor at line 51. -/
structure SQLDatabase where
  engine : Engine
  include_tables : List String
deriving DecidableEq, Repr

/-- Constructing llama_index's SQLDatabase from the (optional) stored
engine handle.  The external constructor inspects the engine object,
so passing Python's None raises (sqlalchemy NoInspectionAvailable);
that failure is modelled as Except.error. -/
def SQLDatabase.build (engine : Option Engine) (include_tables : List String) :
    Except String SQLDatabase :=
  match engine with
  | some e => Except.ok { engine := e, include_tables := include_tables }
  | none => Except.error "NoInspectionAvailable: cannot inspect None engine"

/-- The Ollama LLM client, recorded as the arguments the source passes
to its constructor at line 54. -/
structure Ollama where
  model : String
  base_url : String
  request_timeout : Nat
  context_window : Nat
deriving DecidableEq, Repr

/-- The llama_index PromptTemplate, wrapping the template string
(line 79 of the source). -/
structure PromptTemplate where
  template : String
deriving DecidableEq, Repr

/-- The llama_index NLSQLTableQueryEngine, recorded as the arguments
the source passes to its constructor at lines 81 to 88. -/
structure NLSQLTableQueryEngine where
  sql_database : SQLDatabase
  tables : List String
  llm : Ollama
  embed_model : String
  text_to_sql_prompt : PromptTemplate
  streaming : Bool
deriving DecidableEq, Repr

/-- The observable outcome of one successful pipe invocation: the fully
configured query engine and the argument passed to its query method at
line 89 (the streamed response itself is produced by the external
library and is outside this layer). -/
structure PipeResult where
  query_engine : NLSQLTableQueryEngine
  query_arg : String
deriving DecidableEq, Repr

/-- The Pipeline instance state: the fields assigned in __init__
(lines 20 to 30 of the source), in source order. -/
structure Pipeline where
  PG_HOST : String
  PG_PORT : String
  PG_USER : String
  PG_PASSWORD : String
  PG_DB : String
  ollama_host : String
  model : String
  engine : Option Engine
  nlsql_response : String
  tables : List String
deriving DecidableEq, Repr

/-- Embedding of Pipeline.__init__ (lines 20 to 30): reads the five
required environment variables in source order (raising KeyError on
the first absent one) and fills in the fixed configuration fields. -/
def Pipeline.init (env : Env) : Except String Pipeline :=
  match osEnviron env "PG_HOST" with
  | Except.error e => Except.error e
  | Except.ok host =>
    match osEnviron env "PG_PORT" with
    | Except.error e => Except.error e
    | Except.ok port =>
      match osEnviron env "PG_USER" with
      | Except.error e => Except.error e
      | Except.ok user =>
        match osEnviron env "PG_PASSWORD" with
        | Except.error e => Except.error e
        | Except.ok password =>
          match osEnviron env "PG_DB" with
          | Except.error e => Except.error e
          | Except.ok db =>
            Except.ok
              { PG_HOST := host
                PG_PORT := port
                PG_USER := user
                PG_PASSWORD := password
                PG_DB := db
                ollama_host := "http://host.docker.internal:11434"
                model := "phi3:medium-128k"
                engine := none
                nlsql_response := ""
                tables := ["db_table"] }

/-- The connection URL built by the f-string at line 33 of the source. -/
def Pipeline.connection_url (p : Pipeline) : String :=
  "postgresql+psycopg2://" ++ p.PG_USER ++ ":" ++ p.PG_PASSWORD ++ "@" ++
    p.PG_HOST ++ ":" ++ p.PG_PORT ++ "/" ++ p.PG_DB

/-- Embedding of Pipeline.init_db_connection (lines 32 to 34): assigns
a freshly created engine to self.engine and returns it. -/
def Pipeline.init_db_connection (p : Pipeline) : Pipeline × Engine :=
  let e := create_engine p.connection_url
  ({ p with engine := some e }, e)

/-- Embedding of Pipeline.on_startup (lines 37 to 39): calls
init_db_connection and discards its return value. -/
def Pipeline.on_startup (p : Pipeline) : Pipeline :=
  (p.init_db_connection).1

/-- Embedding of Pipeline.on_shutdown (lines 41 to 43): pass. -/
def Pipeline.on_shutdown (p : Pipeline) : Pipeline :=
  p

/-- The text_to_sql_prompt string literal of lines 57 to 77 of the
source, byte for byte (including the trailing spaces after "answer."
and after the final "SQLQuery:", and the indentation of the Python
triple-quoted literal). -/
def text_to_sql_prompt_str : String :=
  "\n        Given an input question, first create a syntactically correct " ++
  "{dialect}" ++
  " query to run, then look at the results of the query and return the answer. \n        You can order the results by a relevant column to return the most interesting examples in the database.\n        " ++
  "Unless the user specifies in the question a specific number of examples" ++
  " to obtain, " ++
  "query for at most 5 results" ++
  " using the LIMIT clause as per Postgres. You can order the results to return the most informative data in the database.\n        " ++
  "Never query for all the columns" ++
  " from a specific table, only ask for a few relevant columns given the question.\n        " ++
  "You should use DISTINCT statements" ++
  " and avoid returning duplicates wherever possible.\n        Pay attention to use only the column names that you can see in the schema description. Be careful to not query for columns that do not exist. Pay attention to which column is in which table. Also, " ++
  "qualify column names with the table name when needed" ++
  ". You are required to use the following format, each taking one line:\n\n        Question: Question here\n        SQLQuery: SQL Query to run\n        SQLResult: Result of the SQLQuery\n        Answer: Final answer here\n\n        " ++
  "Only use tables listed below." ++
  "\n        " ++
  "{schema}" ++
  "\n\n        Question: " ++
  "{query_str}" ++
  "\n        SQLQuery: \n        "

/-- Whether pat occurs as a contiguous substring of s (decidable,
used to state facts about the fixed prompt text). -/
def containsSubstr (s pat : String) : Bool :=
  decide (pat.toList <:+: s.toList)

/-- Embedding of Pipeline.pipe (lines 45 to 90).  The method mutates no
instance field, so the returned state is the input state; the second
component records the configuration handed to the external library, or
the error raised when self.engine is still None.  model_id, messages
and body are bound but never read, exactly as in the source. -/
def Pipeline.pipe (p : Pipeline) (user_message : String) (model_id : String)
    (messages : List Dict) (body : Dict) : Pipeline × Except String PipeResult :=
  (p,
    match SQLDatabase.build p.engine p.tables with
    | Except.error e => Except.error e
    | Except.ok sql_database =>
      let llm : Ollama :=
        { model := p.model
          base_url := p.ollama_host
          request_timeout := 180
          context_window := 30000 }
      let text_to_sql_template : PromptTemplate := { template := text_to_sql_prompt_str }
      let query_engine : NLSQLTableQueryEngine :=
        { sql_database := sql_database
          tables := p.tables
          llm := llm
          embed_model := "local"
          text_to_sql_prompt := text_to_sql_template
          streaming := true }
      Except.ok { query_engine := query_engine, query_arg := user_message })

/-- The five required environment variables, in the order __init__
reads them. -/
def required_env_vars : List String :=
  ["PG_HOST", "PG_PORT", "PG_USER", "PG_PASSWORD", "PG_DB"]

/-- Helper: when all five variables are present, __init__ succeeds and
returns exactly the record the source builds. -/
theorem init_eq_of_all_some (env : Env) (host port user password db : String)
    (hH : env "PG_HOST" = some host) (hP : env "PG_PORT" = some port)
    (hU : env "PG_USER" = some user) (hW : env "PG_PASSWORD" = some password)
    (hD : env "PG_DB" = some db) :
    Pipeline.init env = Except.ok
      { PG_HOST := host
        PG_PORT := port
        PG_USER := user
        PG_PASSWORD := password
        PG_DB := db
        ollama_host := "http://host.docker.internal:11434"
        model := "phi3:medium-128k"
        engine := none
        nlsql_response := ""
        tables := ["db_table"] } := by
  simp [Pipeline.init, osEnviron, hH, hP, hU, hW, hD]

/-- Helper: a successfully constructed Pipeline carries the fixed
configuration values of __init__. -/
theorem init_ok_fields (env : Env) (p : Pipeline)
    (h : Pipeline.init env = Except.ok p) :
    p.ollama_host = "http://host.docker.internal:11434" ∧
    p.model = "phi3:medium-128k" ∧ p.engine = none ∧
    p.nlsql_response = "" ∧ p.tables = ["db_table"] := by
  rcases hH : env "PG_HOST" with _ | host <;>
  rcases hP : env "PG_PORT" with _ | port <;>
  rcases hU : env "PG_USER" with _ | user <;>
  rcases hW : env "PG_PASSWORD" with _ | pw <;>
  rcases hD : env "PG_DB" with _ | db <;>
  simp only [Pipeline.init, osEnviron, hH, hP, hU, hW, hD,
    Except.ok.injEq, reduceCtorEq] at h
  subst h
  exact ⟨rfl, rfl, rfl, rfl, rfl⟩

/-- A concrete environment defining all five required variables. -/
def envAll : Env :=
  fun _ => some "v"

/-- The pipeline state __init__ produces from envAll. -/
def pAll : Pipeline :=
  { PG_HOST := "v"
    PG_PORT := "v"
    PG_USER := "v"
    PG_PASSWORD := "v"
    PG_DB := "v"
    ollama_host := "http://host.docker.internal:11434"
    model := "phi3:medium-128k"
    engine := none
    nlsql_response := ""
    tables := ["db_table"] }

/-- A concrete environment missing exactly PG_PASSWORD. -/
def envNoPassword : Env :=
  fun k => if k = "PG_PASSWORD" then none else some "v"

/-- C3: for each of the five required environment variables PG_HOST,
PG_PORT, PG_USER, PG_PASSWORD, PG_DB, if that variable is absent from
the process environment then construction raises an error (startup
fails before any request can be accepted), and if all five are present
then initialization succeeds in reading them. -/
theorem init_requires_all_env_vars (env : Env) :
    (∀ key ∈ required_env_vars, env key = none →
      ∃ msg, Pipeline.init env = Except.error msg) ∧
    ((∀ key ∈ required_env_vars, (env key).isSome) →
      ∃ p, Pipeline.init env = Except.ok p) := by
  rcases hH : env "PG_HOST" with _ | host <;>
  rcases hP : env "PG_PORT" with _ | port <;>
  rcases hU : env "PG_USER" with _ | user <;>
  rcases hW : env "PG_PASSWORD" with _ | pw <;>
  rcases hD : env "PG_DB" with _ | db <;>
  simp [required_env_vars, Pipeline.init, osEnviron, hH, hP, hU, hW, hD]

/-- Witness for C3 at concrete inputs: an environment missing
PG_PASSWORD makes initialization fail, and an environment providing
all five variables makes it succeed. -/
theorem init_requires_all_env_vars_witness :
    (∃ msg, Pipeline.init envNoPassword = Except.error msg) ∧
    (∃ p, Pipeline.init envAll = Except.ok p) :=
  ⟨(init_requires_all_env_vars envNoPassword).1 "PG_PASSWORD" (by decide) rfl,
   (init_requires_all_env_vars envAll).2 (by intro key _; exact rfl)⟩

/-- C1: for every invocation of pipe on a pipeline constructed by
__init__ (and started up), whatever the user_message, model_id,
messages and body, the table allow-list passed to the SQLDatabase
schema view and to the NLSQLTableQueryEngine is exactly the fixed
configured list containing db_table; no input can expand or alter
it. -/
theorem pipe_allowlist_fixed (env : Env) (p : Pipeline)
    (h : Pipeline.init env = Except.ok p)
    (user_message model_id : String) (messages : List Dict) (body : Dict) :
    ∃ r : PipeResult,
      ((p.on_startup).pipe user_message model_id messages body).2 = Except.ok r ∧
      r.query_engine.sql_database.include_tables = ["db_table"] ∧
      r.query_engine.tables = ["db_table"] := by
  obtain ⟨-, -, -, -, ht⟩ := init_ok_fields env p h
  exact ⟨_, rfl, ht, ht⟩

/-- Witness for C1: a concrete started pipeline queried with a message
that names another table still passes only db_table. -/
theorem pipe_allowlist_fixed_witness :
    ∃ r : PipeResult,
      ((pAll.on_startup).pipe "show me all rows of secret_table" "m" []
        []).2 = Except.ok r ∧
      r.query_engine.sql_database.include_tables = ["db_table"] ∧
      r.query_engine.tables = ["db_table"] :=
  pipe_allowlist_fixed envAll pAll rfl "show me all rows of secret_table" "m" [] []

/-- C2: two invocations of pipe that differ only in model_id and
messages construct the same LLM client, always bound to the endpoint
http://host.docker.internal:11434 and the model phi3:medium-128k; the
caller-supplied model_id and messages never influence it. -/
theorem pipe_llm_ignores_model_id_and_messages (env : Env) (p : Pipeline)
    (h : Pipeline.init env = Except.ok p) (user_message : String)
    (model_id1 model_id2 : String) (messages1 messages2 : List Dict)
    (body : Dict) :
    ∃ r1 r2 : PipeResult,
      ((p.on_startup).pipe user_message model_id1 messages1 body).2 = Except.ok r1 ∧
      ((p.on_startup).pipe user_message model_id2 messages2 body).2 = Except.ok r2 ∧
      r1.query_engine.llm = r2.query_engine.llm ∧
      r1.query_engine.llm.base_url = "http://host.docker.internal:11434" ∧
      r1.query_engine.llm.model = "phi3:medium-128k" := by
  obtain ⟨hhost, hmodel, -, -, -⟩ := init_ok_fields env p h
  exact ⟨_, _, rfl, rfl, rfl, hhost, hmodel⟩

/-- Witness for C2: concrete invocations with different model_id and
messages yield the identical fixed LLM client. -/
theorem pipe_llm_ignores_model_id_and_messages_witness :
    ∃ r1 r2 : PipeResult,
      ((pAll.on_startup).pipe "q" "gpt-4" [] []).2 = Except.ok r1 ∧
      ((pAll.on_startup).pipe "q" "llama3:8b" [[("role", "user")]] []).2 =
        Except.ok r2 ∧
      r1.query_engine.llm = r2.query_engine.llm ∧
      r1.query_engine.llm.base_url = "http://host.docker.internal:11434" ∧
      r1.query_engine.llm.model = "phi3:medium-128k" :=
  pipe_llm_ignores_model_id_and_messages envAll pAll rfl "q" "gpt-4" "llama3:8b"
    [] [[("role", "user")]] []

/-- C5: every invocation of pipe constructs a fresh LLM client with
the same fixed configuration: endpoint http://host.docker.internal:11434,
model phi3:medium-128k, request timeout 180 seconds, context window
30000 tokens; none of the four parameters depends on the request
arguments. -/
theorem pipe_llm_fixed_config (env : Env) (p : Pipeline)
    (h : Pipeline.init env = Except.ok p)
    (user_message model_id : String) (messages : List Dict) (body : Dict) :
    ∃ r : PipeResult,
      ((p.on_startup).pipe user_message model_id messages body).2 = Except.ok r ∧
      r.query_engine.llm =
        { model := "phi3:medium-128k"
          base_url := "http://host.docker.internal:11434"
          request_timeout := 180
          context_window := 30000 } := by
  obtain ⟨hhost, hmodel, -, -, -⟩ := init_ok_fields env p h
  refine ⟨_, rfl, ?_⟩
  simp [Pipeline.pipe, Pipeline.on_startup, Pipeline.init_db_connection, hhost, hmodel]

/-- Witness for C5: a concrete invocation constructs exactly the fixed
LLM client. -/
theorem pipe_llm_fixed_config_witness :
    ∃ r : PipeResult,
      ((pAll.on_startup).pipe "q" "m" [] []).2 = Except.ok r ∧
      r.query_engine.llm =
        { model := "phi3:medium-128k"
          base_url := "http://host.docker.internal:11434"
          request_timeout := 180
          context_window := 30000 } :=
  pipe_llm_fixed_config envAll pAll rfl "q" "m" [] []

/-- C4: if on_startup was never called, so the stored engine handle is
still its initial None value, then invoking pipe raises an error (the
external SQLDatabase constructor cannot inspect None) rather than
returning a valid-looking result. -/
theorem pipe_without_startup_errors (p : Pipeline) (h : p.engine = none)
    (user_message model_id : String) (messages : List Dict) (body : Dict) :
    (p.pipe user_message model_id messages body).2 =
      Except.error "NoInspectionAvailable: cannot inspect None engine" := by
  simp [Pipeline.pipe, SQLDatabase.build, h]

/-- Witness for C4: the freshly initialized concrete pipeline, on
which on_startup was never called, errors when pipe is invoked. -/
theorem pipe_without_startup_errors_witness :
    (pAll.pipe "q" "m" [] []).2 =
      Except.error "NoInspectionAvailable: cannot inspect None engine" :=
  pipe_without_startup_errors pAll rfl "q" "m" [] []

/-- C7: on_startup stores in the instance the engine handle built from
the five environment-derived connection values combined with the fixed
driver/dialect selector postgresql+psycopg2, and every subsequent pipe
invocation hands exactly that stored handle to the schema view and
leaves it in place (reused across requests). -/
theorem on_startup_engine_reused_by_pipe (p : Pipeline) :
    (p.on_startup).engine =
      some (create_engine ("postgresql+psycopg2://" ++ p.PG_USER ++ ":" ++
        p.PG_PASSWORD ++ "@" ++ p.PG_HOST ++ ":" ++ p.PG_PORT ++ "/" ++ p.PG_DB)) ∧
    ∀ (user_message model_id : String) (messages : List Dict) (body : Dict),
      ∃ r : PipeResult,
        ((p.on_startup).pipe user_message model_id messages body).2 = Except.ok r ∧
        some r.query_engine.sql_database.engine = (p.on_startup).engine ∧
        ((p.on_startup).pipe user_message model_id messages body).1.engine =
          (p.on_startup).engine :=
  ⟨rfl, fun _ _ _ _ => ⟨_, rfl, rfl, rfl⟩⟩

/-- C8: after startup no operation mutates the Pipeline state:
on_shutdown is a no-op returning the state unchanged, and pipe leaves
every instance field unchanged (no per-request state is retained). -/
theorem no_state_mutation_after_startup (p : Pipeline)
    (user_message model_id : String) (messages : List Dict) (body : Dict) :
    p.on_shutdown = p ∧
    (p.pipe user_message model_id messages body).1 = p :=
  ⟨rfl, rfl⟩

/-- C9: invoking pipe with the empty user_message does not fail in
this layer: with an initialized engine the schema view, the LLM client
and the prompt template are still constructed with their usual values,
and the call is delegated to the external query engine exactly as for
any non-empty question (only the query argument differs). -/
theorem pipe_empty_message_delegates (p : Pipeline) (e : Engine)
    (h : p.engine = some e) (model_id : String) (messages : List Dict)
    (body : Dict) :
    ∃ r : PipeResult,
      (p.pipe "" model_id messages body).2 = Except.ok r ∧
      r.query_engine.sql_database = { engine := e, include_tables := p.tables } ∧
      r.query_engine.llm =
        { model := p.model
          base_url := p.ollama_host
          request_timeout := 180
          context_window := 30000 } ∧
      r.query_engine.text_to_sql_prompt = { template := text_to_sql_prompt_str } ∧
      r.query_arg = "" ∧
      ∀ user_message : String,
        (p.pipe user_message model_id messages body).2 =
          Except.ok { r with query_arg := user_message } := by
  refine
    ⟨{ query_engine :=
        { sql_database := { engine := e, include_tables := p.tables }
          tables := p.tables
          llm :=
            { model := p.model
              base_url := p.ollama_host
              request_timeout := 180
              context_window := 30000 }
          embed_model := "local"
          text_to_sql_prompt := { template := text_to_sql_prompt_str }
          streaming := true }
       query_arg := "" }, ?_, rfl, rfl, rfl, rfl, ?_⟩ <;>
  simp [Pipeline.pipe, SQLDatabase.build, h]

/-- Witness for C9: the concrete started pipeline accepts the empty
question and delegates it unchanged. -/
theorem pipe_empty_message_delegates_witness :
    ∃ r : PipeResult,
      ((pAll.on_startup).pipe "" "m" [] []).2 = Except.ok r ∧
      r.query_engine.text_to_sql_prompt = { template := text_to_sql_prompt_str } ∧
      r.query_arg = "" ∧
      ((pAll.on_startup).pipe "how many users are there" "m" [] []).2 =
        Except.ok { r with query_arg := "how many users are there" } :=
  (pipe_empty_message_delegates (pAll.on_startup)
      (create_engine (pAll.connection_url)) rfl "m" [] []).elim
    (fun r hr =>
      ⟨r, hr.1, hr.2.2.2.1, hr.2.2.2.2.1, hr.2.2.2.2.2 "how many users are there"⟩)

/-- C10: init_db_connection returns exactly the engine it has just
stored in the instance (stored field and return value are the same
handle), and it unconditionally replaces whatever handle was stored
before with the newly created one. -/
theorem init_db_connection_stores_and_returns (p : Pipeline) :
    (p.init_db_connection).1.engine = some (p.init_db_connection).2 ∧
    (p.init_db_connection).2 = create_engine p.connection_url ∧
    (p.init_db_connection).1 = { p with engine := some (create_engine p.connection_url) } :=
  ⟨rfl, rfl, rfl⟩

/-- Helper: every string contains itself. -/
theorem containsSubstr_self (pat : String) : containsSubstr pat pat = true :=
  decide_eq_true (List.infix_refl _)

/-- Helper: a substring of s is a substring of s ++ t. -/
theorem containsSubstr_append_left (s t pat : String)
    (h : containsSubstr s pat = true) : containsSubstr (s ++ t) pat = true := by
  refine decide_eq_true ((of_decide_eq_true h).trans ⟨[], t.toList, ?_⟩)
  simp [String.toList]

/-- Helper: a substring of t is a substring of s ++ t. -/
theorem containsSubstr_append_right (s t pat : String)
    (h : containsSubstr t pat = true) : containsSubstr (s ++ t) pat = true := by
  refine decide_eq_true ((of_decide_eq_true h).trans ⟨s.toList, [], ?_⟩)
  simp [String.toList]

/-- The dialect substitution point occurs in the prompt text. -/
theorem prompt_contains_dialect :
    containsSubstr text_to_sql_prompt_str "{dialect}" = true := by
  unfold text_to_sql_prompt_str
  iterate 17 apply containsSubstr_append_left
  exact containsSubstr_append_right _ _ _ (containsSubstr_self _)

/-- The schema substitution point occurs in the prompt text. -/
theorem prompt_contains_schema :
    containsSubstr text_to_sql_prompt_str "{schema}" = true := by
  unfold text_to_sql_prompt_str
  iterate 3 apply containsSubstr_append_left
  exact containsSubstr_append_right _ _ _ (containsSubstr_self _)

/-- The question substitution point occurs in the prompt text. -/
theorem prompt_contains_query_str :
    containsSubstr text_to_sql_prompt_str "{query_str}" = true := by
  unfold text_to_sql_prompt_str
  iterate 1 apply containsSubstr_append_left
  exact containsSubstr_append_right _ _ _ (containsSubstr_self _)

/-- The prompt restricts the model to the listed tables. -/
theorem prompt_contains_only_listed :
    containsSubstr text_to_sql_prompt_str "Only use tables listed below." = true := by
  unfold text_to_sql_prompt_str
  iterate 5 apply containsSubstr_append_left
  exact containsSubstr_append_right _ _ _ (containsSubstr_self _)

/-- The prompt forbids querying all columns of a table. -/
theorem prompt_contains_never_all_columns :
    containsSubstr text_to_sql_prompt_str "Never query for all the columns" = true := by
  unfold text_to_sql_prompt_str
  iterate 11 apply containsSubstr_append_left
  exact containsSubstr_append_right _ _ _ (containsSubstr_self _)

/-- The prompt instructs the model to use DISTINCT statements. -/
theorem prompt_contains_distinct :
    containsSubstr text_to_sql_prompt_str "You should use DISTINCT statements" = true := by
  unfold text_to_sql_prompt_str
  iterate 9 apply containsSubstr_append_left
  exact containsSubstr_append_right _ _ _ (containsSubstr_self _)

/-- The prompt defaults the limit unless the question gives a number. -/
theorem prompt_contains_unless_specified :
    containsSubstr text_to_sql_prompt_str
      "Unless the user specifies in the question a specific number of examples" = true := by
  unfold text_to_sql_prompt_str
  iterate 15 apply containsSubstr_append_left
  exact containsSubstr_append_right _ _ _ (containsSubstr_self _)

/-- The prompt caps the default result count at 5. -/
theorem prompt_contains_limit5 :
    containsSubstr text_to_sql_prompt_str "query for at most 5 results" = true := by
  unfold text_to_sql_prompt_str
  iterate 13 apply containsSubstr_append_left
  exact containsSubstr_append_right _ _ _ (containsSubstr_self _)

/-- The prompt asks to qualify column names with table names. -/
theorem prompt_contains_qualify :
    containsSubstr text_to_sql_prompt_str
      "qualify column names with the table name when needed" = true := by
  unfold text_to_sql_prompt_str
  iterate 7 apply containsSubstr_append_left
  exact containsSubstr_append_right _ _ _ (containsSubstr_self _)

set_option maxRecDepth 4000 in
/-- The prompt text has exactly three opening and three closing braces,
so its three substitution points are the only ones. -/
theorem prompt_substitution_count :
    text_to_sql_prompt_str.toList.count '{' = 3 ∧
    text_to_sql_prompt_str.toList.count '}' = 3 := by
  constructor <;>
  · simp only [text_to_sql_prompt_str, String.toList, String.data_append,
      List.count_append]
    decide

/-- C6: every invocation of pipe builds the same fixed prompt template
string, which has exactly three substitution points (dialect, schema
and the user question, accounting for all three brace pairs of the
text) and instructs the model to use only the listed tables, never
query all columns of a table, use DISTINCT statements, default to at
most 5 results unless the question specifies a number, and qualify
column names with table names when needed. -/
theorem pipe_prompt_template_fixed (env : Env) (p : Pipeline)
    (h : Pipeline.init env = Except.ok p)
    (user_message model_id : String) (messages : List Dict) (body : Dict) :
    ∃ r : PipeResult,
      ((p.on_startup).pipe user_message model_id messages body).2 = Except.ok r ∧
      r.query_engine.text_to_sql_prompt.template = text_to_sql_prompt_str ∧
      text_to_sql_prompt_str.toList.count '{' = 3 ∧
      text_to_sql_prompt_str.toList.count '}' = 3 ∧
      containsSubstr text_to_sql_prompt_str "{dialect}" = true ∧
      containsSubstr text_to_sql_prompt_str "{schema}" = true ∧
      containsSubstr text_to_sql_prompt_str "{query_str}" = true ∧
      containsSubstr text_to_sql_prompt_str "Only use tables listed below." = true ∧
      containsSubstr text_to_sql_prompt_str "Never query for all the columns" = true ∧
      containsSubstr text_to_sql_prompt_str "You should use DISTINCT statements" = true ∧
      containsSubstr text_to_sql_prompt_str
        "Unless the user specifies in the question a specific number of examples" = true ∧
      containsSubstr text_to_sql_prompt_str "query for at most 5 results" = true ∧
      containsSubstr text_to_sql_prompt_str
        "qualify column names with the table name when needed" = true :=
  ⟨_, rfl, rfl, prompt_substitution_count.1, prompt_substitution_count.2,
   prompt_contains_dialect, prompt_contains_schema, prompt_contains_query_str,
   prompt_contains_only_listed, prompt_contains_never_all_columns,
   prompt_contains_distinct, prompt_contains_unless_specified,
   prompt_contains_limit5, prompt_contains_qualify⟩

/-- Witness for C6: a concrete invocation uses the fixed template with
its three substitution points and instruction phrases. -/
theorem pipe_prompt_template_fixed_witness :
    ∃ r : PipeResult,
      ((pAll.on_startup).pipe "q" "m" [] []).2 = Except.ok r ∧
      r.query_engine.text_to_sql_prompt.template = text_to_sql_prompt_str ∧
      text_to_sql_prompt_str.toList.count '{' = 3 ∧
      text_to_sql_prompt_str.toList.count '}' = 3 ∧
      containsSubstr text_to_sql_prompt_str "{dialect}" = true ∧
      containsSubstr text_to_sql_prompt_str "{schema}" = true ∧
      containsSubstr text_to_sql_prompt_str "{query_str}" = true ∧
      containsSubstr text_to_sql_prompt_str "Only use tables listed below." = true ∧
      containsSubstr text_to_sql_prompt_str "Never query for all the columns" = true ∧
      containsSubstr text_to_sql_prompt_str "You should use DISTINCT statements" = true ∧
      containsSubstr text_to_sql_prompt_str
        "Unless the user specifies in the question a specific number of examples" = true ∧
      containsSubstr text_to_sql_prompt_str "query for at most 5 results" = true ∧
      containsSubstr text_to_sql_prompt_str
        "qualify column names with the table name when needed" = true :=
  pipe_prompt_template_fixed envAll pAll rfl "q" "m" [] []

end TextToSql
